import Mathlib

/-!
Verification development for the tokligence-gateway-vs extension.

The definitions below are shallow embeddings of the TypeScript sources:
  * `src/utils/config.ts`   — `platformLabels`, configuration snapshot
  * `src/gateway/manager.ts`— `startGateway`, `downloadBinary` (asset
    selection), `getGatewayStatus`, `testConnection`, environment building
  * `src/views/chat.ts`     — `openChat` message handler (send / cancel /
    clear), `streamChat` SSE handling
  * `src/unnamed/part_000`  — legacy `startLocalGateway`

JavaScript platform primitives (`String.prototype.includes`,
`String.prototype.toLowerCase`, `JSON.stringify`, truthiness) are modelled
explicitly so each embedded function can be diffed line by line against its
source.
-/

namespace Tokligence

/-! ## JavaScript string primitives -/

/-- Lower-casing a string, as `String.prototype.toLowerCase` does for the
ASCII range the asset names use. -/
def jsToLowerCase (s : String) : String :=
  String.mk (s.toList.map Char.toLower)

/-- Substring test on character lists: `needle` occurs contiguously in the
list. -/
def containsChars (needle : List Char) : List Char → Bool
  | [] => needle.isEmpty
  | c :: rest => needle.isPrefixOf (c :: rest) || containsChars needle rest

/-- `hay.includes(needle)` from JavaScript. -/
def jsIncludes (hay needle : String) : Bool :=
  containsChars needle.toList hay.toList

/-- `hay.endsWith(suffix)` from JavaScript. -/
def jsEndsWith (hay suffix : String) : Bool :=
  suffix.toList.isSuffixOf hay.toList

/-! ## `platformLabels` (src/utils/config.ts lines 76-82) -/

/-- `platformLabels()`: canonical OS label and architecture aliases for a
Node `process.platform` / `process.arch` pair. -/
def platformLabels (p a : String) : String × List String :=
  let osLabel := if p = "win32" then "windows" else if p = "darwin" then "darwin" else "linux"
  let archLabels := if a = "x64" then ["amd64", "x86_64", "x64"]
    else if a = "arm64" then ["arm64", "aarch64"] else [a]
  (osLabel, archLabels)

/-! ## Release asset selection (src/gateway/manager.ts lines 183-209) -/

/-- The filter predicate of `downloadBinary`: the asset name, lower-cased,
contains the OS label and at least one architecture alias. -/
def assetMatches (osLabel : String) (archLabels : List String) (name : String) : Bool :=
  jsIncludes (jsToLowerCase name) osLabel &&
    archLabels.any (fun al => jsIncludes (jsToLowerCase name) al)

/-- The sort key of `downloadBinary`: `.tar.gz` scores 0, `.zip` scores 1,
anything else 2. -/
def assetScore (name : String) : Nat :=
  if jsEndsWith (jsToLowerCase name) ".tar.gz" then 0
  else if jsEndsWith (jsToLowerCase name) ".zip" then 1
  else 2

/-- `candidates.sort(cmp)[0]` where `cmp` compares `assetScore`s.
JavaScript `Array.prototype.sort` is stable, so the first element of the
sorted array is the earliest element of minimal score; the fold below
computes exactly that. -/
def pickPreferred : List String → Option String
  | [] => none
  | c :: cs =>
    some (cs.foldl (fun best x => if assetScore x < assetScore best then x else best) c)

/-- Failure modes of the asset-selection portion of `downloadBinary`. -/
inductive SelectError where
  | noAssets
  | noMatchingAsset
deriving DecidableEq, Repr

/-- Asset selection in `downloadBinary` (manager.ts lines 183-209): throw if
the release has no assets, filter by OS label and architecture alias, throw
if no candidate remains, otherwise take the first element of the
score-sorted candidates. -/
def selectReleaseAsset (osLabel : String) (archLabels : List String)
    (assets : List String) : Except SelectError String :=
  if assets.isEmpty then .error .noAssets
  else
    let candidates := assets.filter (assetMatches osLabel archLabels)
    match pickPreferred candidates with
    | none => .error .noMatchingAsset
    | some a => .ok a

/-! ## A model of JavaScript JSON values

`axios` hands `openChat` a parsed response body (`res.data`); the SSE
handler runs `JSON.parse` on each event's `data` field.  Both are modelled
with the `Json` type below, together with the JavaScript primitives the
code applies to such values: optional chaining, truthiness and
`JSON.stringify`. -/

inductive Json where
  | null
  | bool (b : Bool)
  | num (n : Int)
  | str (s : String)
  | arr (items : List Json)
  | obj (fields : List (String × Json))

/-- Optional chaining `v?.k` on an object. -/
def Json.getField : Json → String → Option Json
  | .obj fs, k => (fs.find? (fun f => f.1 == k)).map (·.2)
  | _, _ => none

/-- Optional chaining `v?.[i]` on an array. -/
def Json.getIndex : Json → Nat → Option Json
  | .arr xs, i => xs.get? i
  | _, _ => none

/-- JavaScript truthiness of a JSON value: `null`, `false`, `0` and the
empty string are falsy, every array and object is truthy. -/
def Json.truthy : Json → Bool
  | .null => false
  | .bool b => b
  | .num n => n != 0
  | .str s => !s.isEmpty
  | .arr _ => true
  | .obj _ => true

/-- String-content escaping of `JSON.stringify` (the sources only ever
serialize quote/backslash-free ASCII text, for which escaping quotes and
backslashes is exact). -/
def jsonEscape (s : String) : String :=
  String.mk (s.toList.flatMap (fun c =>
    if c = '"' then ['\\', '"']
    else if c = '\\' then ['\\', '\\'] else [c]))

mutual

/-- `JSON.stringify` on the modelled JSON values. -/
def Json.stringify : Json → String
  | .null => "null"
  | .bool true => "true"
  | .bool false => "false"
  | .num n => toString n
  | .str s => "\"" ++ jsonEscape s ++ "\""
  | .arr xs => "[" ++ stringifyItems xs ++ "]"
  | .obj fs => "\x7b" ++ stringifyFields fs ++ "\x7d"

/-- Comma-separated serialization of array elements. -/
def stringifyItems : List Json → String
  | [] => ""
  | [x] => Json.stringify x
  | x :: y :: rest => Json.stringify x ++ "," ++ stringifyItems (y :: rest)

/-- Comma-separated serialization of object fields. -/
def stringifyFields : List (String × Json) → String
  | [] => ""
  | [(k, v)] => "\"" ++ jsonEscape k ++ "\":" ++ Json.stringify v
  | (k, v) :: f :: rest =>
    "\"" ++ jsonEscape k ++ "\":" ++ Json.stringify v ++ "," ++ stringifyFields (f :: rest)

end

mutual

/-- JavaScript string coercion `String(v)`, as used when a non-string JSON
value flows into string concatenation. -/
def jsCoerceString : Json → String
  | .null => "null"
  | .bool true => "true"
  | .bool false => "false"
  | .num n => toString n
  | .str s => s
  | .arr xs => coerceItems xs
  | .obj _ => "[object Object]"

/-- Array-to-string coercion: elements joined with commas. -/
def coerceItems : List Json → String
  | [] => ""
  | [x] => jsCoerceString x
  | x :: y :: rest => jsCoerceString x ++ "," ++ coerceItems (y :: rest)

end

/-! ## Chat data model (src/views/chat.ts) -/

inductive Role where
  | system
  | user
  | assistant
deriving DecidableEq, Repr

/-- One entry of the `history` array in `openChat`.  The `content` field is
whatever JavaScript value was pushed (a string for system/user messages; the
extracted response value for assistant messages). -/
structure ChatMessage where
  role : Role
  content : Json

/-- A `panel.webview.postMessage` call observable by the webview. -/
inductive Posted where
  | delta (text : String)
  | done
  | resp (content : Json)
  | error (text : String)

/-- The relevant configuration fields of `getConfig()`
(src/utils/config.ts). -/
structure GatewayConfig where
  systemPrompt : String
  model : String
  useStreaming : Bool
  openaiApiKey : String
  anthropicApiKey : String
  geminiApiKey : String
  workMode : String
  facadePort : Nat
  multiportMode : Bool
  openaiPort : Nat
  anthropicPort : Nat
  geminiPort : Nat
  piiFirewallEnabled : Bool
  piiFirewallMode : String
  modelRoutes : String
  logLevel : String

/-- The `clear` branch of the `onDidReceiveMessage` handler
(chat.ts lines 85-89): truncate `history` to length 0 and push a fresh
system message seeded from the current configuration.  Modelled as
returning the new contents of the `history` array. -/
def clearHandler (cfg : GatewayConfig) (_history : List ChatMessage) : List ChatMessage :=
  [⟨Role.system, Json.str cfg.systemPrompt⟩]

/-- Non-streaming content extraction (chat.ts lines 65-72):

```
let content = '';
if (res?.data?.choices?.[0]?.message?.content) content = res.data.choices[0].message.content;
else if (typeof res.data === 'string') content = res.data;
else content = JSON.stringify(res.data);
```

`messageContentChain` is the optional chain of the first condition;
`extractAssistantContent` is the whole cascade. -/
def messageContentChain (data : Json) : Option Json :=
  ((data.getField "choices").bind (fun c => c.getIndex 0)
    |>.bind (fun c => c.getField "message")).bind (fun m => m.getField "content")

/-- See `messageContentChain`: the value assigned to `content`. -/
def extractAssistantContent (data : Json) : Json :=
  match messageContentChain data with
  | some c =>
    if c.truthy then c
    else match data with
      | .str _ => data
      | _ => .str data.stringify
  | none =>
    match data with
    | .str _ => data
    | _ => .str data.stringify

/-- Outcome of the `axios.post` in the non-streaming branch: either the
parsed response body, or a thrown error (non-2xx status, timeout, network
failure) carrying its message. -/
inductive NsOutcome where
  | ok (data : Json)
  | err (message : String)

/-- The non-streaming branch of the `send` handler (chat.ts lines 59-79):
the user message was already pushed; on success extract the assistant
content, push it and post a `resp` message; on a thrown error post an
`error` message and leave history as it is.  Returns the final `history`
array and the posted webview messages. -/
def handleSendNonStreaming (history : List ChatMessage) (text : String)
    (outcome : NsOutcome) : List ChatMessage × List Posted :=
  let history := history ++ [⟨Role.user, Json.str text⟩]
  match outcome with
  | .ok data =>
    let content := extractAssistantContent data
    (history ++ [⟨Role.assistant, content⟩], [.resp content])
  | .err m => (history, [.error m])

/-! ## Streaming path (chat.ts `streamChat`, lines 93-142)

The `eventsource-parser` callback receives each SSE event's `data` string;
the handler body (lines 119-131) first checks the `[DONE]` sentinel, then
tries `JSON.parse(data)`.  `JSON.parse` is a platform primitive, so the
handler is modelled over the data string together with its parse result
(`some j` when `JSON.parse(data)` succeeds with value `j`, `none` when it
throws). -/

/-- The optional chain `json?.choices?.[0]?.delta?.content` of the SSE
handler. -/
def deltaContentChain (json : Json) : Option Json :=
  ((json.getField "choices").bind (fun c => c.getIndex 0)
    |>.bind (fun c => c.getField "delta")).bind (fun d => d.getField "content")

/-- The per-event handler of `streamChat` (chat.ts lines 119-131), returning
the fragments passed to `onDelta` for this event:

```
if (data === '[DONE]') return;
try {
  const json = JSON.parse(data);
  const delta = json?.choices?.[0]?.delta?.content ?? '';
  if (delta) onDelta(delta);
} catch { if (data) onDelta(data); }
```
-/
def onSseEvent (data : String) (parsed : Option Json) : List String :=
  if data == "[DONE]" then []
  else
    match parsed with
    | some json =>
      match deltaContentChain json with
      | some c => if c.truthy then [jsCoerceString c] else []
      | none => []
    | none => if !data.isEmpty then [data] else []

/-- One result of `await reader.read()` in the read loop of `streamChat`.
A `chunk` carries the SSE events the parser completes from it, each as the
event's `data` string paired with its `JSON.parse` result; `done` is a
normal end of stream; `aborted` is the rejection the pending read receives
when the `AbortController` fires (user cancel or the timeout). -/
inductive ReadOutcome where
  | chunk (events : List (String × Option Json))
  | done
  | aborted

/-- Errors `streamChat` propagates to the `send` handler's `catch`. -/
inductive StreamErr where
  | httpError (status : Nat)
  | abortError

/-- The message text of a propagated stream error (`err.message` in the
outer catch); an abort rejection carries the runtime's fixed abort text. -/
def streamErrMessage : StreamErr → String
  | .httpError s => "HTTP " ++ toString s
  | .abortError => "This operation was aborted"

/-- The read loop of `streamChat` (chat.ts lines 133-138): feed each chunk
to the parser, collecting the emitted fragments in order; stop normally at
`done`; an abort rejects the pending read, ending the loop with an error
and emitting nothing further. -/
def runReads : List ReadOutcome → List String × Option StreamErr
  | [] => ([], none)
  | .done :: _ => ([], none)
  | .aborted :: _ => ([], some .abortError)
  | .chunk evs :: rest =>
    let frags := (evs.map (fun e => onSseEvent e.1 e.2)).flatten
    let r := runReads rest
    (frags ++ r.1, r.2)

/-- The streamed HTTP response as `streamChat` sees it: the `fetch` result
status/ok/body flags and the subsequent sequence of read results. -/
structure StreamResponse where
  ok : Bool
  status : Nat
  hasBody : Bool
  reads : List ReadOutcome

/-- `streamChat` (chat.ts lines 93-142): throw `HTTP <status>` when the
response is not ok or has no body, otherwise run the read loop.  Returns
the fragments passed to `onDelta`, in order, and the error propagated to
the caller, if any. -/
def streamChat (resp : StreamResponse) : List String × Option StreamErr :=
  if !resp.ok || !resp.hasBody then ([], some (.httpError resp.status))
  else runReads resp.reads

/-- The streaming branch of the `send` handler (chat.ts lines 44-58 and the
catch at 77-79): the user message was already pushed; each fragment is
posted as a `delta` and accumulated into `acc`; if `streamChat` resolves,
`acc` is pushed as the assistant message and `done` is posted; if it
throws — including the abort rejection produced by `cancel` — the catch
posts an `error` message and nothing is pushed. -/
def handleSendStreaming (history : List ChatMessage) (text : String)
    (resp : StreamResponse) : List ChatMessage × List Posted :=
  let history := history ++ [⟨Role.user, Json.str text⟩]
  let r := streamChat resp
  let posted := r.1.map Posted.delta
  match r.2 with
  | none => (history ++ [⟨Role.assistant, Json.str (String.join r.1)⟩], posted ++ [.done])
  | some e => (history, posted ++ [.error (streamErrMessage e)])

/-! ## ProcessSupervisor state (src/gateway/manager.ts lines 15-140)

`startGateway` is an async function over the module-level
`gatewayProcess`.  Its execution between suspension points is atomic
(single-threaded event loop); the suspension points on the fast path
(consent already granted, binary already executable) are the
`fs.promises.access` await before the spawn and the 1500 ms `setTimeout`
await after it.  A pending invocation is therefore a program counter
between those atomic segments. -/

/-- A spawned child handle: only its `killed` flag matters to
`isGatewayRunning`. -/
structure ProcHandle where
  killed : Bool
deriving DecidableEq, Repr

/-- The module-level supervisor state, extended with a ghost counter of how
many times `cp.spawn` has been called. -/
structure SupState where
  gatewayProcess : Option ProcHandle
  spawnCount : Nat
deriving DecidableEq, Repr

/-- `isGatewayRunning()` (manager.ts lines 25-27). -/
def isGatewayRunning (s : SupState) : Bool :=
  match s.gatewayProcess with
  | some h => !h.killed
  | none => false

/-- Program counter of one pending `startGateway` invocation on the fast
path: `entry` is the code up to and including the guard at line 30;
`preSpawn` is the segment after the `fs.promises.access` await that
performs `cp.spawn` (line 112); `graceWait` is the segment after the
1500 ms `setTimeout` that samples liveness (lines 132-139). -/
inductive StartPc where
  | entry
  | preSpawn
  | graceWait
  | finished (result : Bool)
deriving DecidableEq, Repr

/-- One atomic segment of `startGateway`: run the code from the current
program counter to the next suspension point (or to return). -/
def startStep (s : SupState) (pc : StartPc) : SupState × StartPc :=
  match pc with
  | .entry => if isGatewayRunning s then (s, .finished true) else (s, .preSpawn)
  | .preSpawn => ({ gatewayProcess := some ⟨false⟩, spawnCount := s.spawnCount + 1 }, .graceWait)
  | .graceWait => (s, .finished (isGatewayRunning s))
  | .finished r => (s, .finished r)

/-- Two concurrent `startGateway` invocations A and B over the shared
module state. -/
structure TwoStarts where
  st : SupState
  pcA : StartPc
  pcB : StartPc
deriving DecidableEq, Repr

/-- Scheduler step: run the next atomic segment of invocation A (`false`)
or B (`true`). -/
def schedStep (w : TwoStarts) (pick : Bool) : TwoStarts :=
  if pick then
    let r := startStep w.st w.pcB
    { w with st := r.1, pcB := r.2 }
  else
    let r := startStep w.st w.pcA
    { w with st := r.1, pcA := r.2 }

/-- Run a schedule of interleaved segments from the initial state (no
process, nothing spawned, both invocations at entry). -/
def runSched (sched : List Bool) : TwoStarts :=
  sched.foldl schedStep { st := ⟨none, 0⟩, pcA := .entry, pcB := .entry }

/-! ## Binary provisioning check in `start`

`startGateway` (manager.ts lines 52-66) and the legacy
`startLocalGateway` (part_000 lines 92-112) both probe the binary with
`fs.promises.access(binPath, X_OK)` and, on failure, optionally download.
They differ in what happens after a successful download. -/

/-- How far a `start` attempt gets on the binary-provisioning path. -/
inductive StartOutcome where
  | spawned
  | failedNoBinary
  | failedDownload
  | failedStillMissing
deriving DecidableEq, Repr

/-- The provisioning phase of `startGateway` (manager.ts lines 52-66):
on a failed access check, download when `autoDownloadBinary` is set,
recompute `binPath`, and — with no further access check — fall through to
`cp.spawn`. `accessBefore`/`accessAfter` say whether the `X_OK` probe of
the resolved binary path succeeds before/after the download; the
`accessAfter` result is never consulted. -/
def startGatewayProvision (autoDownload accessBefore downloadOk _accessAfter : Bool) :
    StartOutcome :=
  if accessBefore then .spawned
  else if autoDownload then
    if downloadOk then .spawned
    else .failedDownload
  else .failedNoBinary

/-- The provisioning phase of the legacy `startLocalGateway`
(part_000 lines 92-112): after a successful download it re-probes the
resolved binary path and fails with `Binary still missing or not
executable` — without spawning — when the probe still fails. -/
def startLocalGatewayProvision (autoDownload accessBefore downloadOk accessAfter : Bool) :
    StartOutcome :=
  if accessBefore then .spawned
  else if autoDownload then
    if downloadOk then
      if accessAfter then .spawned else .failedStillMissing
    else .failedDownload
  else .failedNoBinary

/-! ## Status and health probes (manager.ts lines 263-318) -/

/-- The raw result of an HTTP GET: a response with a status code, or a
transport failure (connection error or timeout). -/
inductive HttpResult where
  | response (status : Nat)
  | networkError
deriving DecidableEq, Repr

/-- axios's default `validateStatus`: accept exactly the 2xx range. -/
def axiosDefaultValidate (s : Nat) : Bool :=
  200 ≤ s && s < 300

/-- `axios.get` without a `validateStatus` override, as in
`getGatewayStatus` (manager.ts line 311): a non-2xx response is thrown
just like a transport failure. -/
def axiosGetDefault (r : HttpResult) : Except Unit Nat :=
  match r with
  | .response s => if axiosDefaultValidate s then .ok s else .error ()
  | .networkError => .error ()

/-- The `running` computation of `getGatewayStatus` (manager.ts lines
309-315): probe `/health`; on a (2xx) response set
`running = res.status >= 200 && res.status < 300`; on a thrown error fall
back to `isGatewayRunning()`. -/
def getGatewayStatusRunning (probe : HttpResult) (localState : SupState) : Bool :=
  match axiosGetDefault probe with
  | .ok s => axiosDefaultValidate s
  | .error _ => isGatewayRunning localState

/-- The three user-visible outcomes of `testConnection`. -/
inductive ConnReport where
  | okMsg
  | warningMsg (status : Nat)
  | errorMsg
deriving DecidableEq, Repr

/-- `testConnection` (manager.ts lines 263-284): probes with
`validateStatus: () => true`, so every HTTP response is inspected — 2xx
shows an OK message and returns true, any other status a warning with the
code, and only a transport failure the not-reachable error. -/
def testConnection (probe : HttpResult) : ConnReport × Bool :=
  match probe with
  | .response s => if 200 ≤ s && s < 300 then (.okMsg, true) else (.warningMsg s, false)
  | .networkError => (.errorMsg, false)

/-! ## Child environment construction (manager.ts lines 68-101) -/

/-- Assignment `env[k] = v` on a JavaScript object, modelled as a prepended
association list: a later assignment shadows earlier bindings. -/
def setVar (env : List (String × String)) (k v : String) : List (String × String) :=
  (k, v) :: env

/-- Lookup in the modelled environment object. -/
def getVar (env : List (String × String)) (k : String) : Option String :=
  (env.find? (fun p => p.1 == k)).map (·.2)

/-- The environment `startGateway` builds for the child process
(manager.ts lines 68-101), starting from a copy of `process.env` and
applying each assignment in source order; `TOKLIGENCE_AUTH_DISABLED` is set
to `'true'` unconditionally at line 101. -/
def buildEnv (cfg : GatewayConfig) (base : List (String × String)) :
    List (String × String) :=
  let env := base
  let env := if !cfg.openaiApiKey.isEmpty then
    setVar env "TOKLIGENCE_OPENAI_API_KEY" cfg.openaiApiKey else env
  let env := if !cfg.anthropicApiKey.isEmpty then
    setVar env "TOKLIGENCE_ANTHROPIC_API_KEY" cfg.anthropicApiKey else env
  let env := if !cfg.geminiApiKey.isEmpty then
    setVar env "TOKLIGENCE_GEMINI_API_KEY" cfg.geminiApiKey else env
  let env := setVar env "TOKLIGENCE_WORK_MODE" cfg.workMode
  let env := setVar env "TOKLIGENCE_FACADE_PORT" (toString cfg.facadePort)
  let env := if cfg.multiportMode then
    let env := setVar env "TOKLIGENCE_MULTIPORT_MODE" "true"
    let env := setVar env "TOKLIGENCE_OPENAI_PORT" (toString cfg.openaiPort)
    let env := setVar env "TOKLIGENCE_ANTHROPIC_PORT" (toString cfg.anthropicPort)
    setVar env "TOKLIGENCE_GEMINI_PORT" (toString cfg.geminiPort)
  else env
  let env := setVar env "TOKLIGENCE_PROMPT_FIREWALL_ENABLED"
    (if cfg.piiFirewallEnabled then "true" else "false")
  let env := setVar env "TOKLIGENCE_PROMPT_FIREWALL_MODE" cfg.piiFirewallMode
  let env := if !cfg.modelRoutes.isEmpty then
    setVar env "TOKLIGENCE_MODEL_PROVIDER_ROUTES" cfg.modelRoutes else env
  let env := setVar env "TOKLIGENCE_LOG_LEVEL" cfg.logLevel
  setVar env "TOKLIGENCE_AUTH_DISABLED" "true"

/-! ## Concrete sample inputs used to exercise the embedded functions -/

/-- The non-streaming scenario body
`{"choices":[{"message":{"content":"hi"}}]}`. -/
def hiBody : Json :=
  .obj [("choices", .arr [.obj [("message", .obj [("content", .str "hi")])]])]

/-- A response body whose first-choice message content is present but
empty: `{"choices":[{"message":{"content":""}}]}`. -/
def emptyContentBody : Json :=
  .obj [("choices", .arr [.obj [("message", .obj [("content", .str "")])]])]

/-- A parsed SSE payload whose delta content is `"Hel"`. -/
def sampleDeltaJson : Json :=
  .obj [("choices", .arr [.obj [("delta", .obj [("content", .str "Hel")])]])]

/-- A streamed response that delivers one fragment and is then cancelled:
the pending read rejects, and data that would have arrived later (the
trailing chunk) is never observed. -/
def abortedResp : StreamResponse :=
  { ok := true, status := 200, hasBody := true,
    reads := [.chunk [("d1", some sampleDeltaJson)], .aborted,
      .chunk [("d2", some sampleDeltaJson)]] }

/-! ## Helper lemmas -/

theorem foldlMin_mem (c : String) (cs : List String) :
    cs.foldl (fun best x => if assetScore x < assetScore best then x else best) c ∈ c :: cs := by
  induction cs generalizing c with
  | nil => simp
  | cons x xs ih =>
    simp only [List.foldl_cons]
    have h := ih (if assetScore x < assetScore c then x else c)
    rcases List.mem_cons.mp h with h1 | h1
    · rw [h1]
      split
      · simp
      · simp
    · exact List.mem_cons_of_mem _ (List.mem_cons_of_mem _ h1)

theorem foldlMin_le (c : String) (cs : List String) :
    ∀ b ∈ c :: cs,
      assetScore (cs.foldl (fun best x => if assetScore x < assetScore best then x else best) c)
        ≤ assetScore b := by
  induction cs generalizing c with
  | nil =>
    intro b hb
    simp only [List.mem_singleton] at hb
    rw [hb]
    exact Nat.le_refl _
  | cons x xs ih =>
    intro b hb
    simp only [List.foldl_cons]
    have hle_c : assetScore (if assetScore x < assetScore c then x else c) ≤ assetScore c := by
      split
      · exact Nat.le_of_lt (by assumption)
      · exact Nat.le_refl _
    have hle_x : assetScore (if assetScore x < assetScore c then x else c) ≤ assetScore x := by
      split
      · exact Nat.le_refl _
      · exact Nat.le_of_not_lt (by assumption)
    have hres := ih (if assetScore x < assetScore c then x else c)
      (if assetScore x < assetScore c then x else c) (List.mem_cons_self _ _)
    rcases List.mem_cons.mp hb with h1 | h1
    · rw [h1]; exact Nat.le_trans hres hle_c
    · rcases List.mem_cons.mp h1 with h2 | h2
      · rw [h2]; exact Nat.le_trans hres hle_x
      · exact ih _ b (List.mem_cons_of_mem _ h2)

theorem pickPreferred_mem {l : List String} {a : String} (h : pickPreferred l = some a) :
    a ∈ l := by
  cases l with
  | nil => simp [pickPreferred] at h
  | cons c cs =>
    simp only [pickPreferred, Option.some.injEq] at h
    rw [← h]
    exact foldlMin_mem c cs

theorem pickPreferred_le {l : List String} {a : String} (h : pickPreferred l = some a) :
    ∀ b ∈ l, assetScore a ≤ assetScore b := by
  cases l with
  | nil => simp [pickPreferred] at h
  | cons c cs =>
    simp only [pickPreferred, Option.some.injEq] at h
    rw [← h]
    exact foldlMin_le c cs

/-! ## Claim theorems -/

/-- C3: the resolver selects an asset whose lower-cased name contains both
the canonical OS label and an architecture alias, of minimal extension
score (`.tar.gz` before `.zip` before raw) among all matching candidates;
when no asset matches it fails with the no-matching-asset error; and on a
linux/x64 host the two-asset scenario resolves to the `.tar.gz` entry. -/
theorem release_asset_resolution (os : String) (archs : List String)
    (assets : List String) :
    (∀ a, selectReleaseAsset os archs assets = .ok a →
      a ∈ assets ∧ assetMatches os archs a = true ∧
      ∀ b, b ∈ assets → assetMatches os archs b = true → assetScore a ≤ assetScore b) ∧
    (assets ≠ [] → (∀ a, a ∈ assets → assetMatches os archs a = false) →
      selectReleaseAsset os archs assets = .error .noMatchingAsset) ∧
    platformLabels "linux" "x64" = ("linux", ["amd64", "x86_64", "x64"]) ∧
    selectReleaseAsset "linux" ["amd64", "x86_64", "x64"]
        ["tokligence-gateway-windows-amd64.zip", "tokligence-gateway-linux-amd64.tar.gz"]
      = .ok "tokligence-gateway-linux-amd64.tar.gz" := by
  refine ⟨?_, ?_, by rfl, by rfl⟩
  · intro a ha
    unfold selectReleaseAsset at ha
    by_cases he : assets.isEmpty
    · simp [he] at ha
    · simp only [he, if_false, Bool.false_eq_true] at ha
      cases hp : pickPreferred (assets.filter (assetMatches os archs)) with
      | none => rw [hp] at ha; exact absurd ha (by simp)
      | some x =>
        rw [hp] at ha
        simp only [Except.ok.injEq] at ha
        rw [← ha]
        have hmem := pickPreferred_mem hp
        have hfil := List.mem_filter.mp hmem
        refine ⟨hfil.1, hfil.2, ?_⟩
        intro b hb hbm
        exact pickPreferred_le hp b (List.mem_filter.mpr ⟨hb, hbm⟩)
  · intro hne hnone
    have he : assets.isEmpty = false := by
      cases assets with
      | nil => exact absurd rfl hne
      | cons x xs => rfl
    have hfil : assets.filter (assetMatches os archs) = [] := by
      rw [List.filter_eq_nil_iff]
      intro a ha
      simp [hnone a ha]
    unfold selectReleaseAsset
    simp [he, hfil, pickPreferred]

/-- C3 witness: the selection theorem applied to the linux/amd64 scenario
list and to a list with no matching asset. -/
theorem release_asset_resolution_witness :
    ("tokligence-gateway-linux-amd64.tar.gz" ∈
        ["tokligence-gateway-windows-amd64.zip", "tokligence-gateway-linux-amd64.tar.gz"] ∧
      assetMatches "linux" ["amd64", "x86_64", "x64"]
        "tokligence-gateway-linux-amd64.tar.gz" = true ∧
      ∀ b, b ∈ ["tokligence-gateway-windows-amd64.zip",
          "tokligence-gateway-linux-amd64.tar.gz"] →
        assetMatches "linux" ["amd64", "x86_64", "x64"] b = true →
        assetScore "tokligence-gateway-linux-amd64.tar.gz" ≤ assetScore b) ∧
    selectReleaseAsset "linux" ["amd64", "x86_64", "x64"]
        ["tokligence-gateway-darwin-arm64.tar.gz"] = .error .noMatchingAsset :=
  ⟨(release_asset_resolution "linux" ["amd64", "x86_64", "x64"]
      ["tokligence-gateway-windows-amd64.zip", "tokligence-gateway-linux-amd64.tar.gz"]).1
      "tokligence-gateway-linux-amd64.tar.gz" (by rfl),
   (release_asset_resolution "linux" ["amd64", "x86_64", "x64"]
      ["tokligence-gateway-darwin-arm64.tar.gz"]).2.1 (by decide) (by decide)⟩

/-- C8: the clear handler always produces a history of length exactly 1
whose sole entry is a system message carrying the configured system
prompt. -/
theorem clear_resets_history (cfg : GatewayConfig) (history : List ChatMessage) :
    clearHandler cfg history = [⟨Role.system, Json.str cfg.systemPrompt⟩] ∧
    (clearHandler cfg history).length = 1 :=
  ⟨rfl, rfl⟩

/-- C9: the child environment built by `startGateway` maps
`TOKLIGENCE_AUTH_DISABLED` to `'true'` for every configuration and every
base process environment. -/
theorem auth_disabled_always_set (cfg : GatewayConfig) (base : List (String × String)) :
    getVar (buildEnv cfg base) "TOKLIGENCE_AUTH_DISABLED" = some "true" := by
  rfl


/-- C1 counterexample: the interleaving A-entry, B-entry, A-spawn, B-spawn,
A-check, B-check â both invocations begin before either has spawned â calls
`cp.spawn` twice and both invocations return success. -/
theorem double_spawn_counterexample :
    (runSched [false, true, false, true, false, true]).st.spawnCount = 2 ∧
    (runSched [false, true, false, true, false, true]).pcA = StartPc.finished true ∧
    (runSched [false, true, false, true, false, true]).pcB = StartPc.finished true := by
  decide

/-- C1 (amended): `start()` invoked while the process is genuinely running
(handle present and not killed) is a no-op returning success and changes no
state, and a second `start()` that begins only after the first has spawned
short-circuits at its entry guard, leaving exactly one spawned process;
the guard is checked only at entry, so it does not serialize a `start()`
that begins while a prior one is still pending before its spawn (see the
counterexample). -/
theorem start_guard_only_at_entry (s : SupState) (h : isGatewayRunning s = true) :
    startStep s StartPc.entry = (s, StartPc.finished true) ∧
    (runSched [false, false, true, false]).st.spawnCount = 1 ∧
    (runSched [false, false, true, false]).pcB = StartPc.finished true := by
  refine ⟨by simp [startStep, h], by decide, by decide⟩

/-- C1 witness: the amended theorem applied to a state holding a live
handle. -/
theorem start_guard_only_at_entry_witness :
    isGatewayRunning ⟨some ⟨false⟩, 3⟩ = true ∧
    startStep ⟨some ⟨false⟩, 3⟩ StartPc.entry = (⟨some ⟨false⟩, 3⟩, StartPc.finished true) :=
  ⟨by decide, (start_guard_only_at_entry ⟨some ⟨false⟩, 3⟩ (by decide)).1⟩

/-- C4 counterexample: with auto-provisioning on, the binary initially
missing, the download reporting success and the binary path still not
executable afterwards, `startGateway` proceeds to `cp.spawn` instead of
failing with a binary-still-missing error: the re-check the claim
describes is absent from manager.ts. -/
theorem start_no_recheck_counterexample :
    startGatewayProvision true false true false = StartOutcome.spawned ∧
    startGatewayProvision true false true false ≠ StartOutcome.failedStillMissing := by
  decide

/-- C4 (amended): `startGateway` (manager.ts) never consults the
post-download executability re-check â its outcome is independent of it â
while the legacy `startLocalGateway` (part_000) does re-check after a
successful download, failing without spawning when the binary is still not
executable and spawning when it is. -/
theorem start_recheck_behavior :
    (∀ auto before ok a a', startGatewayProvision auto before ok a
      = startGatewayProvision auto before ok a') ∧
    startLocalGatewayProvision true false true false = StartOutcome.failedStillMissing ∧
    startLocalGatewayProvision true false true true = StartOutcome.spawned := by
  refine ⟨?_, by decide, by decide⟩
  intro auto before ok a a'
  cases auto <;> cases before <;> cases ok <;> rfl

/-- C5 counterexample: a 503 health response combined with a live locally
tracked handle makes `getGatewayStatus` report `running = true`: the
non-2xx response is thrown by the default axios status validation and
handled exactly like an unreachable endpoint, falling back to local
liveness. -/
theorem status_503_counterexample :
    getGatewayStatusRunning (HttpResult.response 503) ⟨some ⟨false⟩, 1⟩ = true := by
  decide

/-- C5 (amended): a 2xx probe yields `running = true` regardless of the
local handle; any non-2xx response is thrown by axios default validation
and â exactly like a transport failure â falls back to the locally tracked
liveness, so 503 yields `running = false` only when no local process is
live; inside `status()` Degraded and Unreachable are conflated, while
`testConnection` (probing with `validateStatus: () => true`) distinguishes
a 503 warning from the unreachable error. -/
theorem status_running_resolution :
    (∀ s st, axiosDefaultValidate s = true →
      getGatewayStatusRunning (HttpResult.response s) st = true) ∧
    (∀ s st, axiosDefaultValidate s = false →
      getGatewayStatusRunning (HttpResult.response s) st = isGatewayRunning st) ∧
    (∀ st, getGatewayStatusRunning HttpResult.networkError st = isGatewayRunning st) ∧
    (∀ st, getGatewayStatusRunning (HttpResult.response 503) st
      = getGatewayStatusRunning HttpResult.networkError st) ∧
    getGatewayStatusRunning (HttpResult.response 503) ⟨none, 0⟩ = false ∧
    testConnection (HttpResult.response 503) = (ConnReport.warningMsg 503, false) ∧
    testConnection HttpResult.networkError = (ConnReport.errorMsg, false) := by
  refine ⟨?_, ?_, fun st => rfl, fun st => rfl, by decide, by decide, by decide⟩
  · intro s st h
    simp [getGatewayStatusRunning, axiosGetDefault, h]
  · intro s st h
    simp [getGatewayStatusRunning, axiosGetDefault, h]

/-- C5 witness: the amended theorem applied to a 204 probe with no local
process and to a 503 probe with a dead local handle. -/
theorem status_running_resolution_witness :
    (axiosDefaultValidate 204 = true ∧
      getGatewayStatusRunning (HttpResult.response 204) ⟨none, 0⟩ = true) ∧
    (axiosDefaultValidate 503 = false ∧
      getGatewayStatusRunning (HttpResult.response 503) ⟨some ⟨true⟩, 1⟩
        = isGatewayRunning ⟨some ⟨true⟩, 1⟩) :=
  ⟨⟨by decide, status_running_resolution.1 204 ⟨none, 0⟩ (by decide)⟩,
   ⟨by decide, status_running_resolution.2.1 503 ⟨some ⟨true⟩, 1⟩ (by decide)⟩⟩


/-- C7: the SSE event handler emits nothing for the `[DONE]` sentinel;
for a payload that parses as JSON it emits exactly the first choice
delta-content string when that string is non-empty and nothing when it is
empty; and a non-empty payload that fails to parse is emitted verbatim. -/
theorem sse_event_handling :
    (∀ parsed, onSseEvent "[DONE]" parsed = []) ∧
    (∀ data json s, data ≠ "[DONE]" → deltaContentChain json = some (Json.str s) →
      s ≠ "" → onSseEvent data (some json) = [s]) ∧
    (∀ data json, data ≠ "[DONE]" → deltaContentChain json = some (Json.str "") →
      onSseEvent data (some json) = []) ∧
    (∀ data, data ≠ "[DONE]" → data ≠ "" → onSseEvent data none = [data]) := by
  refine ⟨ fun parsed => rfl, ?_, ?_, ?_ ⟩
  · intro data json s hd hc hs
    have hbeq : (data == "[DONE]") = false := beq_eq_false_iff_ne.mpr hd
    have hse : s.isEmpty = false := by
      rw [Bool.eq_false_iff]
      intro hx
      exact hs ((String.isEmpty_iff s).mp hx)
    simp [onSseEvent, hbeq, hc, Json.truthy, hse, jsCoerceString]
  · intro data json hd hc
    have hbeq : (data == "[DONE]") = false := beq_eq_false_iff_ne.mpr hd
    simp only [onSseEvent, hbeq, hc, Json.truthy, Bool.false_eq_true, if_false]
    rfl
  · intro data hd hne
    have hbeq : (data == "[DONE]") = false := beq_eq_false_iff_ne.mpr hd
    have hse : data.isEmpty = false := by
      rw [Bool.eq_false_iff]
      intro hx
      exact hne ((String.isEmpty_iff data).mp hx)
    simp [onSseEvent, hbeq, hse]

/-- C7 witness: the handling theorem applied to a concrete delta payload,
to the sentinel and to a concrete non-JSON payload. -/
theorem sse_event_handling_witness :
    onSseEvent "[DONE]" none = [] ∧
    ("x" ≠ "[DONE]" ∧ deltaContentChain sampleDeltaJson = some (Json.str "Hel") ∧
      "Hel" ≠ "" ∧ onSseEvent "x" (some sampleDeltaJson) = ["Hel"]) ∧
    ("raw text" ≠ "[DONE]" ∧ "raw text" ≠ "" ∧
      onSseEvent "raw text" none = ["raw text"]) :=
  ⟨ sse_event_handling.1 none,
   ⟨ by decide, by rfl, by decide,
    sse_event_handling.2.1 "x" sampleDeltaJson "Hel" (by decide) (by rfl) (by decide) ⟩,
   ⟨ by decide, by decide,
    sse_event_handling.2.2.2 "raw text" (by decide) (by decide) ⟩ ⟩

/-- C10: `send` appends the user message before issuing the request and
does not remove it on failure: on a thrown non-streaming request the final
history is the prior history plus exactly the new user message (no
assistant entry) and only an error is posted; likewise when the streaming
call propagates any error. -/
theorem send_failure_keeps_user_message (history : List ChatMessage) (text : String) :
    (∀ m, handleSendNonStreaming history text (.err m)
      = (history ++ [⟨ Role.user, Json.str text ⟩], [.error m])) ∧
    (∀ resp e, (streamChat resp).2 = some e →
      (handleSendStreaming history text resp).1 = history ++ [⟨ Role.user, Json.str text ⟩] ∧
      (handleSendStreaming history text resp).2
        = (streamChat resp).1.map Posted.delta ++ [.error (streamErrMessage e)]) := by
  refine ⟨ fun m => rfl, ?_ ⟩
  intro resp e h
  constructor
  · simp [handleSendStreaming, h]
  · simp [handleSendStreaming, h]

/-- C10 witness: the theorem applied to a concrete failed non-streaming
request and to the concrete cancelled stream. -/
theorem send_failure_keeps_user_message_witness :
    handleSendNonStreaming [] "hi" (.err "timeout")
      = ([⟨ Role.user, Json.str "hi" ⟩], [.error "timeout"]) ∧
    ((streamChat abortedResp).2 = some StreamErr.abortError ∧
      (handleSendStreaming [] "hi" abortedResp).1 = [] ++ [⟨ Role.user, Json.str "hi" ⟩]) :=
  ⟨ (send_failure_keeps_user_message [] "hi").1 "timeout",
   ⟨ by rfl,
    ((send_failure_keeps_user_message [] "hi").2 abortedResp StreamErr.abortError (by rfl)).1 ⟩ ⟩

/-- C2 counterexample: cancelling the concrete in-flight stream after one
fragment posts an error message to the caller — the abort rejection is
caught by the send handler and surfaced — contradicting the claim that no
error is raised purely from cancellation. -/
theorem cancel_error_surfaced_counterexample :
    (handleSendStreaming [⟨ Role.system, Json.str "You are a helpful coding assistant." ⟩]
        "hi" abortedResp).2
      = [Posted.delta "Hel", Posted.error "This operation was aborted"] := by
  rfl

/-- C2 (amended): cancelling an in-flight streaming send commits no partial
assistant message — the history keeps exactly the prior entries plus the
new user message — and emits no further delta fragments after the abort
(reads after the rejection are never observed); the abort rejection is,
however, caught by the send handler and surfaced to the caller as an error
message. -/
theorem cancel_no_commit_no_further_fragments (history : List ChatMessage) (text : String)
    (resp : StreamResponse) (frags : List String)
    (h : streamChat resp = (frags, some StreamErr.abortError)) :
    (handleSendStreaming history text resp).1 = history ++ [⟨ Role.user, Json.str text ⟩] ∧
    (handleSendStreaming history text resp).2
      = frags.map Posted.delta ++ [Posted.error "This operation was aborted"] ∧
    ∀ rest, runReads (ReadOutcome.aborted :: rest) = ([], some StreamErr.abortError) := by
  refine ⟨ ?_, ?_, fun rest => rfl ⟩
  · simp [handleSendStreaming, h]
  · simp [handleSendStreaming, h, streamErrMessage]

/-- C2 witness: the amended theorem applied to the concrete cancelled
stream. -/
theorem cancel_no_commit_witness :
    streamChat abortedResp = (["Hel"], some StreamErr.abortError) ∧
    (handleSendStreaming [] "q" abortedResp).1 = [] ++ [⟨ Role.user, Json.str "q" ⟩] :=
  ⟨ by rfl, (cancel_no_commit_no_further_fragments [] "q" abortedResp ["Hel"] (by rfl)).1 ⟩


/-- C6 counterexample: the response body
`{"choices":[{"message":{"content":""}}]}` has the first-choice message
content shape, yet the extracted text is not that content: the truthiness
guard rejects the empty string, `typeof res.data` is not `'string'`, and
the serialization of the whole body is returned instead. -/
theorem empty_content_counterexample :
    messageContentChain emptyContentBody = some (Json.str "") ∧
    extractAssistantContent emptyContentBody
      = Json.str "\x7b\"choices\":[\x7b\"message\":\x7b\"content\":\"\"\x7d\x7d]\x7d" ∧
    extractAssistantContent emptyContentBody ≠ Json.str "" := by
  refine ⟨ by rfl, by rfl, ?_ ⟩
  intro h
  have h0 : Json.str "\x7b\"choices\":[\x7b\"message\":\x7b\"content\":\"\"\x7d\x7d]\x7d"
      = Json.str "" := h
  injection h0 with h1
  exact absurd h1 (by decide)

/-- C6 (amended): the returned assistant text is the first-choice message
content when that field is present and truthy (in particular a non-empty
string); a raw string body is returned verbatim; any other body — including
one whose content field is present but fails the truthiness check, such as
the empty string — is serialized whole; exactly the computed value is
appended as the single assistant message and posted once; the
`{"choices":[{"message":{"content":"hi"}}]}` scenario returns exactly
`"hi"` with one new assistant entry carrying it. -/
theorem nonstreaming_extraction (history : List ChatMessage) (text : String) :
    (∀ data c, messageContentChain data = some c → c.truthy = true →
      handleSendNonStreaming history text (.ok data)
        = (history ++ [⟨ Role.user, Json.str text ⟩, ⟨ Role.assistant, c ⟩],
           [.resp c])) ∧
    (∀ s, handleSendNonStreaming history text (.ok (Json.str s))
        = (history ++ [⟨ Role.user, Json.str text ⟩, ⟨ Role.assistant, Json.str s ⟩],
           [.resp (Json.str s)])) ∧
    (∀ data, messageContentChain data = none → (∀ s, data ≠ Json.str s) →
      handleSendNonStreaming history text (.ok data)
        = (history ++ [⟨ Role.user, Json.str text ⟩,
            ⟨ Role.assistant, Json.str data.stringify ⟩],
           [.resp (Json.str data.stringify)])) ∧
    (∀ data c, messageContentChain data = some c → c.truthy = false →
      (∀ s, data ≠ Json.str s) →
      handleSendNonStreaming history text (.ok data)
        = (history ++ [⟨ Role.user, Json.str text ⟩,
            ⟨ Role.assistant, Json.str data.stringify ⟩],
           [.resp (Json.str data.stringify)])) ∧
    handleSendNonStreaming history text (.ok hiBody)
      = (history ++ [⟨ Role.user, Json.str text ⟩, ⟨ Role.assistant, Json.str "hi" ⟩],
         [.resp (Json.str "hi")]) := by
  refine ⟨ ?_, ?_, ?_, ?_, ?_ ⟩
  · intro data c hc ht
    simp [handleSendNonStreaming, extractAssistantContent, hc, ht]
  · intro s
    simp [handleSendNonStreaming, extractAssistantContent, messageContentChain, Json.getField]
  · intro data hc hns
    cases data with
    | str s => exact absurd rfl (hns s)
    | null => simp [handleSendNonStreaming, extractAssistantContent, hc]
    | bool b => simp [handleSendNonStreaming, extractAssistantContent, hc]
    | num n => simp [handleSendNonStreaming, extractAssistantContent, hc]
    | arr xs => simp [handleSendNonStreaming, extractAssistantContent, hc]
    | obj fs => simp [handleSendNonStreaming, extractAssistantContent, hc]
  · intro data c hc ht hns
    cases data with
    | str s => exact absurd rfl (hns s)
    | null => simp [handleSendNonStreaming, extractAssistantContent, hc, ht]
    | bool b => simp [handleSendNonStreaming, extractAssistantContent, hc, ht]
    | num n => simp [handleSendNonStreaming, extractAssistantContent, hc, ht]
    | arr xs => simp [handleSendNonStreaming, extractAssistantContent, hc, ht]
    | obj fs => simp [handleSendNonStreaming, extractAssistantContent, hc, ht]
  · simp [handleSendNonStreaming]
    rfl

/-- C6 witness: the amended theorem applied to the `"hi"` scenario body,
to a raw string body, and to the empty-content body. -/
theorem nonstreaming_extraction_witness :
    (messageContentChain hiBody = some (Json.str "hi") ∧ (Json.str "hi").truthy = true ∧
      handleSendNonStreaming [] "q" (.ok hiBody)
        = ([⟨ Role.user, Json.str "q" ⟩, ⟨ Role.assistant, Json.str "hi" ⟩],
           [.resp (Json.str "hi")])) ∧
    (messageContentChain emptyContentBody = some (Json.str "") ∧
      (Json.str "").truthy = false ∧
      handleSendNonStreaming [] "q2" (.ok emptyContentBody)
        = ([⟨ Role.user, Json.str "q2" ⟩,
            ⟨ Role.assistant, Json.str emptyContentBody.stringify ⟩],
           [.resp (Json.str emptyContentBody.stringify)])) := by
  refine ⟨⟨by rfl, by rfl, ?_⟩, ⟨by rfl, by rfl, ?_⟩⟩
  · have h := (nonstreaming_extraction [] "q").1 hiBody (Json.str "hi") rfl rfl
    simpa using h
  · have h := (nonstreaming_extraction [] "q2").2.2.2.1 emptyContentBody (Json.str "") rfl rfl
      (fun s hx => by injection hx)
    simpa using h

end Tokligence
